import Mathlib

/-!
Verification development for the EvalForge Python SDK client
(`sdks/python/evalforge`): a shallow embedding of `models.py` (`TokenUsage`,
`TraceEvent`) and `client.py` (the `EvalForge` client, its background worker
loop, the `_send_batch` retry loop, and the module-level `trace`/`flush`
helpers), followed by theorems about the retry/backoff policy, the flush
scheduler, shutdown behaviour, and construction-time invariants.

Conventions of the embedding:
- machine integers are `Int`/`Nat` (Python ints are unbounded);
- Python float values that are only carried or compared (`time.time()`
  readings, `flush_interval`, costs) are modelled as exact rationals `ℚ`;
  the one computation whose result depends on IEEE-754 binary64 rounding,
  `duration_ms` (client.py line 215), is embedded exactly as scaled-integer
  binary64 arithmetic (`flRat`, `flTimes1000`, `FP.trunc` below);
- `datetime` values are modelled at their native resolution as whole
  microseconds since the epoch (an `Int`);
- fallible operations return `Option`/`Except`;
- nondeterministic inputs (generated UUIDs, the current clock, each HTTP
  attempt's outcome) are passed in explicitly as parameters/oracles.
-/

namespace Evalforge

/-- Token usage record from `models.py` (`TokenUsage`): pydantic integer
fields `prompt`, `completion`, `total`, each defaulting to 0. -/
structure TokenUsage where
  prompt : Int
  completion : Int
  total : Int
deriving Repr, DecidableEq

/-- Embeds `TokenUsage.__init__` (models.py lines 17-21): pydantic assigns
the supplied fields (each defaulting to 0), then, if `self.total == 0`,
replaces `total` with `prompt + completion`. -/
def TokenUsage.init (prompt : Int := 0) (completion : Int := 0) (total : Int := 0) :
    TokenUsage :=
  { prompt := prompt, completion := completion,
    total := if total = 0 then prompt + completion else total }

/-- Floor of the base-2 logarithm of a natural number, by fueled halving
(`log2Fuel fuel n` is exact whenever `n < 2 ^ fuel`). -/
def log2Fuel : Nat → Nat → Nat
  | 0, _ => 0
  | fuel + 1, n => if n ≤ 1 then 0 else log2Fuel fuel (n / 2) + 1

/-- `⌊log₂ n⌋` for `n ≥ 1`, exact for every `n < 2^256` — far beyond any
numerator or denominator the `duration_ms` pipeline below can produce. -/
def natLog2 (n : Nat) : Nat := log2Fuel 256 n

/-- An IEEE-754 binary64 value represented exactly: the real number
`m · 2^e`, with `|m| ≤ 2^53` after rounding. Finite doubles in the normal
range are exactly the numbers of this form, so binary64 arithmetic is
embedded as exact integer arithmetic on `(m, e)`. -/
structure FP where
  m : Int
  e : Int
deriving Repr, DecidableEq

/-- Decides `2^t ≤ n / d` (for `n, d ≥ 1`) by scaled integer comparison. -/
def gePow2 (n d : Nat) (t : Int) : Bool :=
  if 0 ≤ t then d * 2 ^ t.toNat ≤ n else d ≤ n * 2 ^ (-t).toNat

/-- `⌊log₂ (n / d)⌋` for `n, d ≥ 1`: the bit-length estimate
`natLog2 n - natLog2 d` is off by at most one (it always lies in
`(log₂(n/d) - 1, log₂(n/d) + 1)`), so one comparison corrects it. -/
def ratLog2 (n d : Nat) : Int :=
  if gePow2 n d ((natLog2 n : Int) - (natLog2 d : Int)) then
    (natLog2 n : Int) - (natLog2 d : Int)
  else
    (natLog2 n : Int) - (natLog2 d : Int) - 1

/-- Round the ratio `N / D` (with `D ≥ 1`) to the nearest integer, ties to
even — IEEE-754's default rounding applied to an exactly scaled mantissa. -/
def roundMantissa (N D : Nat) : Nat :=
  if 2 * (N % D) < D then N / D
  else if D < 2 * (N % D) then N / D + 1
  else if (N / D) % 2 = 0 then N / D else N / D + 1

/-- Correctly rounded binary64 value of `n / d` for `n, d ≥ 1`: scale the
ratio so that it lies in `[2^52, 2^53)` and round the mantissa to nearest,
ties to even. (A carry to `2^53` still represents the rounded value
exactly.) -/
def flPos (n d : Nat) : FP :=
  { m := (roundMantissa (n * 2 ^ (52 - ratLog2 n d).toNat)
      (d * 2 ^ (ratLog2 n d - 52).toNat) : Nat)
    e := ratLog2 n d - 52 }

/-- Correctly rounded binary64 value of `num / den` (`den ≥ 1`), any sign:
IEEE-754 rounding is symmetric about zero. Exact over binary64's normal
finite range, which covers every value reachable from microsecond-resolution
`datetime` differences. -/
def flRat (num : Int) (den : Nat) : FP :=
  if num = 0 then { m := 0, e := 0 }
  else if num < 0 then
    { m := -(flPos num.natAbs den).m, e := (flPos num.natAbs den).e }
  else flPos num.natAbs den

/-- Binary64 product of a double with the exactly representable float 1000
(Python `ts * 1000` converts the int to a double and rounds the product
once): the exact product `(m · 1000) · 2^e` is re-rounded to binary64. -/
def flTimes1000 (x : FP) : FP :=
  flRat (x.m * 1000 * 2 ^ x.e.toNat) (2 ^ (-x.e).toNat)

/-- Python `int()` applied to a double: truncation toward zero. -/
def FP.trunc (x : FP) : Int :=
  if 0 ≤ x.e then x.m * 2 ^ x.e.toNat
  else if 0 ≤ x.m then (x.m.toNat / 2 ^ (-x.e).toNat : Nat)
  else -((-x.m).toNat / 2 ^ (-x.e).toNat : Nat)

/-- Embeds `duration_ms = int((end_time - start_time).total_seconds() * 1000)`
(client.py line 215), with both timestamps in whole microseconds and IEEE-754
binary64 arithmetic modelled exactly: `timedelta.total_seconds()` is CPython's
`_to_microseconds() / 10**6`, a single correctly rounded binary64 division of
exact integers; `* 1000` is a second correctly rounded binary64 product; and
`int()` truncates toward zero. Because of the two roundings the result can
fall below the exact whole-millisecond count (e.g. a span of exactly 1.001 s
yields 1000, not 1001). -/
def durationMsFloat (startUs endUs : Int) : Int :=
  (flTimes1000 (flRat (endUs - startUs) 1000000)).trunc

/-- Trace event record from `models.py` (`TraceEvent`). Timestamps are whole
microseconds; the free-form JSON mappings `input`/`output`/`metadata` are
modelled as string-to-string association lists (their values are opaque to
the client). -/
structure TraceEvent where
  id : String
  projectId : Int
  traceId : String
  spanId : String
  parentSpanId : Option String
  operationType : String
  startUs : Int
  endUs : Int
  durationMs : Int
  status : String
  input : List (String × String)
  output : List (String × String)
  metadata : List (String × String)
  tokens : TokenUsage
  cost : ℚ
  provider : String
  model : String
deriving Repr, DecidableEq

/-- The client's event buffer, a `queue.Queue` of trace events: a FIFO list
plus an optional capacity. `queue.Queue()` built with no argument has
`maxsize = 0`, i.e. no capacity bound, modelled as `capacity = none`. -/
structure EQueue where
  capacity : Option Nat
  items : List TraceEvent
deriving Repr, DecidableEq

/-- Embeds `queue.Queue.put_nowait`: the result `none` models the
`queue.Full` exception, raised exactly when a bounded queue is at capacity;
otherwise the event is appended at the tail. -/
def EQueue.putNowait (q : EQueue) (e : TraceEvent) : Option EQueue :=
  match q.capacity with
  | none => some { q with items := q.items ++ [e] }
  | some c =>
    if q.items.length < c then some { q with items := q.items ++ [e] } else none

/-- Python `str.rstrip("/")`: drop every trailing `/` character. -/
def rstripSlash (s : String) : String :=
  String.mk ((s.data.reverse.dropWhile fun ch => ch = '/').reverse)

/-- The `EvalForge` client object from `client.py`: its configuration fields
and the event queue (`self._event_queue`). -/
structure EvalForge where
  apiKey : String
  projectId : Int
  baseUrl : String
  batchSize : Nat
  flushInterval : ℚ
  maxRetries : Nat
  timeout : ℚ
  debug : Bool
  eventQueue : EQueue
deriving Repr, DecidableEq

/-- Embeds `EvalForge.__init__` (client.py lines 28-71). Line 59 of the
source assigns `self.debug = True` (commented "Force debug mode for
testing") regardless of the `debug` argument, so the `debug` parameter is
ignored here exactly as in the code; line 62 builds `queue.Queue()` with no
capacity bound. -/
def EvalForge.init (apiKey : String) (projectId : Int)
    (baseUrl : String := "https://api.evalforge.dev") (batchSize : Nat := 100)
    (flushInterval : ℚ := 5) (maxRetries : Nat := 3) (timeout : ℚ := 30)
    (debug : Bool := false) : EvalForge :=
  { apiKey := apiKey
    projectId := projectId
    baseUrl := rstripSlash baseUrl
    batchSize := batchSize
    flushInterval := flushInterval
    maxRetries := maxRetries
    timeout := timeout
    debug := true
    eventQueue := { capacity := none, items := [] } }

/-- One transport attempt's outcome as `_send_batch` observes it: an HTTP
status code from `requests.post`, or a raised
`requests.exceptions.RequestException` (connection error, timeout). -/
inductive Response where
  | status (code : Nat)
  | netError
deriving Repr, DecidableEq

/-- How `_send_batch` ends for a batch. -/
inductive SendOutcome where
  | delivered
  | dropped
  | skipped
deriving Repr, DecidableEq

/-- Observable behaviour of one `_send_batch` call: its final outcome, how
many POST attempts it made, and the backoff sleeps (in seconds, in order)
it performed between attempts. -/
structure SendTrace where
  outcome : SendOutcome
  posts : Nat
  waits : List Nat
deriving Repr, DecidableEq

/-- Embeds the `for attempt in range(self.max_retries + 1)` loop of
`_send_batch` (client.py lines 135-168). `resp` is the transport oracle
giving each attempt's outcome; `fuel` is the number of loop iterations left
(initially `maxRetries + 1`) and `attempt` the current loop index. Status
201 returns success; 429 sleeps `2 ** attempt` and retries while
`attempt < max_retries` (on the last attempt the loop body just ends and the
loop exhausts); any other status returns at once; a request exception
sleeps and retries while `attempt < max_retries`, else logs and falls out. -/
def sendBatchGo (maxRetries : Nat) (resp : Nat → Response) : Nat → Nat → SendTrace
  | 0, _ => { outcome := SendOutcome.dropped, posts := 0, waits := [] }
  | fuel + 1, attempt =>
    match resp attempt with
    | Response.status code =>
      if code = 201 then
        { outcome := SendOutcome.delivered, posts := 1, waits := [] }
      else if code = 429 then
        if attempt < maxRetries then
          let rest := sendBatchGo maxRetries resp fuel (attempt + 1)
          { outcome := rest.outcome, posts := rest.posts + 1
            waits := 2 ^ attempt :: rest.waits }
        else
          let rest := sendBatchGo maxRetries resp fuel (attempt + 1)
          { outcome := rest.outcome, posts := rest.posts + 1, waits := rest.waits }
      else
        { outcome := SendOutcome.dropped, posts := 1, waits := [] }
    | Response.netError =>
      if attempt < maxRetries then
        let rest := sendBatchGo maxRetries resp fuel (attempt + 1)
        { outcome := rest.outcome, posts := rest.posts + 1
          waits := 2 ^ attempt :: rest.waits }
      else
        { outcome := SendOutcome.dropped, posts := 1, waits := [] }

/-- Embeds `EvalForge._send_batch` (client.py lines 120-168): an empty batch
returns immediately with no attempt; otherwise the retry loop runs with
`max_retries + 1` iterations starting at attempt 0. -/
def sendBatch (maxRetries : Nat) (resp : Nat → Response) (events : List TraceEvent) :
    SendTrace :=
  if events.isEmpty then { outcome := SendOutcome.skipped, posts := 0, waits := [] }
  else sendBatchGo maxRetries resp (maxRetries + 1) 0

/-- How one HTTP response status is handled inside an attempt. -/
inductive AttemptKind where
  | success
  | retryable
  | terminal
deriving Repr, DecidableEq

/-- The status classification of the `if`/`elif`/`else` chain at client.py
lines 147-159: 201 succeeds, 429 is retryable, anything else is terminal for
the batch. -/
def classifyStatus (code : Nat) : AttemptKind :=
  if code = 201 then AttemptKind.success
  else if code = 429 then AttemptKind.retryable
  else AttemptKind.terminal

/-- Configuration the background worker reads (shared read-only with the
client): `batch_size` and `flush_interval`. -/
structure WorkerConfig where
  batchSize : Nat
  flushInterval : ℚ
deriving Repr, DecidableEq

/-- The background worker's state between loop iterations: the accumulated
`batch`, the `last_flush` clock reading, whether `self._flush_event` is set,
and the audit list of batches handed to `_send_batch` so far. -/
structure WorkerState where
  batch : List TraceEvent
  lastFlush : ℚ
  flushRequested : Bool
  sent : List (List TraceEvent)
deriving Repr, DecidableEq

/-- The `event = self._event_queue.get(timeout=1.0)` step of the loop body:
an arriving event is appended to the batch, `queue.Empty` leaves it as is. -/
def appendArrived (batch : List TraceEvent) : Option TraceEvent → List TraceEvent
  | none => batch
  | some e => batch ++ [e]

/-- Embeds the `should_flush` expression of client.py lines 99-103:
`len(batch) >= self.batch_size or (batch and current_time - last_flush >=
self.flush_interval) or self._flush_event.is_set()`, with Python truthiness
of a list being its non-emptiness. -/
def shouldFlush (cfg : WorkerConfig) (batch1 : List TraceEvent)
    (lastFlush now : ℚ) (flushRequested : Bool) : Bool :=
  decide (cfg.batchSize ≤ batch1.length) ||
    (!batch1.isEmpty && decide (cfg.flushInterval ≤ now - lastFlush)) ||
    flushRequested

/-- Embeds one iteration of the `while not self._stop_event.is_set()` body of
`_background_worker` (client.py lines 88-110): dequeue with timeout
(`arrived`), read the clock (`now`), evaluate `should_flush`, and on
`should_flush and batch` send the batch, clear it, reset `last_flush`, and
clear the flush-request flag. -/
def workerIter (cfg : WorkerConfig) (s : WorkerState) (arrived : Option TraceEvent)
    (now : ℚ) : WorkerState :=
  let batch1 := appendArrived s.batch arrived
  if shouldFlush cfg batch1 s.lastFlush now s.flushRequested && !batch1.isEmpty then
    { batch := [], lastFlush := now, flushRequested := false
      sent := s.sent ++ [batch1] }
  else
    { batch := batch1, lastFlush := s.lastFlush
      flushRequested := s.flushRequested, sent := s.sent }

/-- The worker's view of one loop iteration: the value `self._stop_event`
has at the loop-condition check, the dequeue outcome, and the clock. -/
structure IterInput where
  stopSet : Bool
  arrived : Option TraceEvent
  now : ℚ
deriving Repr, DecidableEq

/-- Embeds the final-flush epilogue of `_background_worker` (client.py lines
116-118): once the loop has exited, `if batch: self._send_batch(batch)`. -/
def finalFlush (s : WorkerState) : WorkerState :=
  if s.batch.isEmpty then s else { s with sent := s.sent ++ [s.batch] }

/-- Embeds the whole `_background_worker` loop (client.py lines 83-118) over
a finite schedule of iteration inputs. Each step first checks the stop
signal: if set, the loop exits and the final flush runs (the `Bool` result
records that the worker terminated); otherwise one loop-body iteration runs.
An exhausted schedule with the worker still running returns `false`. -/
def workerRun (cfg : WorkerConfig) (s : WorkerState) :
    List IterInput → WorkerState × Bool
  | [] => (s, false)
  | i :: rest =>
    if i.stopSet then (finalFlush s, true)
    else workerRun cfg (workerIter cfg s i.arrived i.now) rest

/-- Embeds the event construction inside `EvalForge.trace` (client.py lines
209-235): defaults are filled (`uuid.uuid4()` values and `now` are passed in
explicitly as `freshId`/`freshTraceId`/`freshSpanId`/`nowUs`), then the
`TraceEvent` is built with `duration_ms` derived from the resolved
timestamps. -/
def buildEvent (c : EvalForge) (freshId freshTraceId freshSpanId : String)
    (nowUs : Int) (operationType : String)
    (inputData outputData metadata : List (String × String))
    (traceId spanId parentSpanId : Option String) (startUs endUs : Option Int)
    (status : String) (tokens : Option TokenUsage) (cost : Option ℚ)
    (provider mdl : Option String) : TraceEvent :=
  let tId := traceId.getD freshTraceId
  let sId := spanId.getD freshSpanId
  let sT := startUs.getD nowUs
  let eT := endUs.getD nowUs
  { id := freshId
    projectId := c.projectId
    traceId := tId
    spanId := sId
    parentSpanId := parentSpanId
    operationType := operationType
    startUs := sT
    endUs := eT
    durationMs := durationMsFloat sT eT
    status := status
    input := inputData
    output := outputData
    metadata := metadata
    tokens := tokens.getD (TokenUsage.init 0 0 0)
    cost := cost.getD 0
    provider := provider.getD ""
    model := mdl.getD "" }

/-- Embeds `EvalForge.trace` (client.py lines 170-244): build the event,
`put_nowait` it (on `queue.Full` the event is dropped and only logged), and
return the resolved trace id. The `Bool` records whether the event was
enqueued. -/
def EvalForge.trace (c : EvalForge) (freshId freshTraceId freshSpanId : String)
    (nowUs : Int) (operationType : String)
    (inputData outputData metadata : List (String × String))
    (traceId spanId parentSpanId : Option String) (startUs endUs : Option Int)
    (status : String) (tokens : Option TokenUsage) (cost : Option ℚ)
    (provider mdl : Option String) : String × EvalForge × Bool :=
  let event := buildEvent c freshId freshTraceId freshSpanId nowUs operationType
    inputData outputData metadata traceId spanId parentSpanId startUs endUs
    status tokens cost provider mdl
  match c.eventQueue.putNowait event with
  | some q => (event.traceId, { c with eventQueue := q }, true)
  | none => (event.traceId, c, false)

/-- Embeds the module-level `trace` function (client.py lines 310-320): with
no globally configured client it raises
`ValueError("EvalForge client not configured. Call evalforge.configure() first.")`,
modelled as `Except.error` with that message; otherwise it delegates to the
client's `trace` method. -/
def moduleTrace (g : Option EvalForge) (freshId freshTraceId freshSpanId : String)
    (nowUs : Int) (operationType : String)
    (inputData outputData metadata : List (String × String))
    (traceId spanId parentSpanId : Option String) (startUs endUs : Option Int)
    (status : String) (tokens : Option TokenUsage) (cost : Option ℚ)
    (provider mdl : Option String) : Except String (String × EvalForge × Bool) :=
  match g with
  | none =>
    Except.error "EvalForge client not configured. Call evalforge.configure() first."
  | some c =>
    Except.ok (c.trace freshId freshTraceId freshSpanId nowUs operationType
      inputData outputData metadata traceId spanId parentSpanId startUs endUs
      status tokens cost provider mdl)

/-- Embeds the module-level `flush` function (client.py lines 323-337): with
no globally configured client it returns `True` at once; otherwise it
delegates to `client.flush`, whose result (whether the queue drained within
the timeout) depends on background timing and is passed in as
`clientFlushResult`. -/
def moduleFlush (g : Option EvalForge) (clientFlushResult : Bool) : Bool :=
  match g with
  | none => true
  | some _ => clientFlushResult

/-- A concrete trace event used by the closed witness theorems. -/
def sampleEvent : TraceEvent :=
  { id := "e1", projectId := 1, traceId := "t1", spanId := "s1"
    parentSpanId := none, operationType := "llm_call"
    startUs := 0, endUs := 0, durationMs := 0, status := "success"
    input := [], output := [], metadata := []
    tokens := TokenUsage.init 0 0 0, cost := 0, provider := "", model := "" }

/-- A transport oracle answering HTTP 429 to every attempt. -/
def all429 : Nat → Response := fun _ => Response.status 429

/-- A transport oracle answering HTTP 500 to every attempt. -/
def all500 : Nat → Response := fun _ => Response.status 500

/-- A concrete client used by the closed witness theorems. -/
def sampleClient : EvalForge := EvalForge.init "key" 1

/-- A concrete worker configuration used by the closed witness theorems. -/
def sampleCfg : WorkerConfig := { batchSize := 100, flushInterval := 5 }

/-- A concrete worker state (one accumulated event, nothing sent yet) used
by the closed witness theorems. -/
def sampleState : WorkerState :=
  { batch := [sampleEvent], lastFlush := 0, flushRequested := false, sent := [] }

/-- A concrete loop-iteration input with the stop signal set, used by the
closed witness theorems. -/
def sampleStopInput : IterInput := { stopSet := true, arrived := none, now := 7 }

theorem sendBatchGo_zero (maxR : Nat) (resp : Nat → Response) (attempt : Nat) :
    sendBatchGo maxR resp 0 attempt =
      { outcome := SendOutcome.dropped, posts := 0, waits := [] } := by
  simp [sendBatchGo]

theorem sendBatchGo_201 (maxR : Nat) (resp : Nat → Response) (fuel attempt : Nat)
    (h : resp attempt = Response.status 201) :
    sendBatchGo maxR resp (fuel + 1) attempt =
      { outcome := SendOutcome.delivered, posts := 1, waits := [] } := by
  simp [sendBatchGo, h]

theorem sendBatchGo_429_retry (maxR : Nat) (resp : Nat → Response) (fuel attempt : Nat)
    (h : resp attempt = Response.status 429) (hlt : attempt < maxR) :
    sendBatchGo maxR resp (fuel + 1) attempt =
      { outcome := (sendBatchGo maxR resp fuel (attempt + 1)).outcome
        posts := (sendBatchGo maxR resp fuel (attempt + 1)).posts + 1
        waits := 2 ^ attempt :: (sendBatchGo maxR resp fuel (attempt + 1)).waits } := by
  simp [sendBatchGo, h, hlt]

theorem sendBatchGo_429_last (maxR : Nat) (resp : Nat → Response) (fuel attempt : Nat)
    (h : resp attempt = Response.status 429) (hge : ¬ attempt < maxR) :
    sendBatchGo maxR resp (fuel + 1) attempt =
      { outcome := (sendBatchGo maxR resp fuel (attempt + 1)).outcome
        posts := (sendBatchGo maxR resp fuel (attempt + 1)).posts + 1
        waits := (sendBatchGo maxR resp fuel (attempt + 1)).waits } := by
  simp [sendBatchGo, h, hge]

theorem sendBatchGo_terminal (maxR : Nat) (resp : Nat → Response) (fuel attempt code : Nat)
    (h : resp attempt = Response.status code) (h1 : code ≠ 201) (h2 : code ≠ 429) :
    sendBatchGo maxR resp (fuel + 1) attempt =
      { outcome := SendOutcome.dropped, posts := 1, waits := [] } := by
  simp [sendBatchGo, h, h1, h2]

theorem sendBatchGo_const429 (maxR : Nat) (resp : Nat → Response)
    (h429 : ∀ k, resp k = Response.status 429) :
    ∀ fuel attempt, attempt + fuel = maxR + 1 →
      sendBatchGo maxR resp fuel attempt =
        { outcome := SendOutcome.dropped, posts := fuel
          waits := (List.range' attempt (fuel - 1)).map fun k => 2 ^ k } := by
  intro fuel
  induction fuel with
  | zero =>
    intro attempt _
    simp [sendBatchGo_zero]
  | succ f ih =>
    intro attempt h
    cases f with
    | zero =>
      have ha : ¬ attempt < maxR := by omega
      rw [sendBatchGo_429_last maxR resp 0 attempt (h429 attempt) ha,
        sendBatchGo_zero]
      simp
    | succ g =>
      have hlt : attempt < maxR := by omega
      have hrec := ih (attempt + 1) (by omega)
      rw [sendBatchGo_429_retry maxR resp (g + 1) attempt (h429 attempt) hlt, hrec]
      simp [List.range'_succ]

theorem sendBatchGo_posts_pos (maxR : Nat) (resp : Nat → Response) (fuel attempt : Nat)
    (hf : 0 < fuel) : 1 ≤ (sendBatchGo maxR resp fuel attempt).posts := by
  cases fuel with
  | zero => omega
  | succ f =>
    cases hr : resp attempt with
    | status code =>
      by_cases h1 : code = 201
      · rw [h1] at hr
        rw [sendBatchGo_201 maxR resp f attempt hr]
      · by_cases h2 : code = 429
        · rw [h2] at hr
          by_cases h3 : attempt < maxR
          · rw [sendBatchGo_429_retry maxR resp f attempt hr h3]
            exact Nat.le_add_left 1 _
          · rw [sendBatchGo_429_last maxR resp f attempt hr h3]
            exact Nat.le_add_left 1 _
        · rw [sendBatchGo_terminal maxR resp f attempt code hr h1 h2]
    | netError =>
      by_cases h3 : attempt < maxR
      · simp [sendBatchGo, hr, h3]
      · simp [sendBatchGo, hr, h3]

/-- C1: with a non-empty batch and a transport that answers HTTP 429 to every
attempt, `_send_batch` posts the batch exactly `max_retries + 1` times, waits
`2^k` seconds between the k-th and (k+1)-th attempt (k starting at 0), and
then drops the batch with no further attempts. -/
theorem sendBatch_all429_retries (maxRetries : Nat) (resp : Nat → Response)
    (events : List TraceEvent) (hne : events ≠ [])
    (h429 : ∀ k, resp k = Response.status 429) :
    sendBatch maxRetries resp events =
      { outcome := SendOutcome.dropped, posts := maxRetries + 1
        waits := (List.range maxRetries).map fun k => 2 ^ k } := by
  cases events with
  | nil => cases hne rfl
  | cons a l =>
    have h := sendBatchGo_const429 maxRetries resp h429 (maxRetries + 1) 0 (by omega)
    simp only [sendBatch, List.isEmpty_cons, Bool.false_eq_true, if_false, h,
      List.range_eq_range']
    simp

/-- Witness for C1 at `max_retries = 3`: the batch is posted 4 times, with
waits of 1, 2 and 4 seconds in between, and is then dropped. -/
theorem sendBatch_all429_retries_witness :
    sendBatch 3 all429 [sampleEvent] =
      { outcome := SendOutcome.dropped, posts := 4, waits := [1, 2, 4] } := by
  have h := sendBatch_all429_retries 3 all429 [sampleEvent] (by simp) (fun _ => rfl)
  rw [h]
  decide

/-- C5: how a single transport attempt's HTTP status drives `_send_batch`:
a 201 on the first attempt delivers the batch with exactly one post and no
retry; a 429 is classified retryable (with a positive retry budget a second
post follows after the `2^0 = 1` second backoff); any other non-2xx status
is terminal — exactly one post, no backoff wait, batch dropped. -/
theorem sendBatch_status_cases (maxRetries : Nat) (resp : Nat → Response)
    (events : List TraceEvent) (code : Nat) (hne : events ≠ [])
    (h0 : resp 0 = Response.status code) :
    (code = 201 →
      classifyStatus code = AttemptKind.success ∧
      sendBatch maxRetries resp events =
        { outcome := SendOutcome.delivered, posts := 1, waits := [] })
    ∧ (code = 429 →
      classifyStatus code = AttemptKind.retryable ∧
      (0 < maxRetries →
        2 ≤ (sendBatch maxRetries resp events).posts ∧
        (sendBatch maxRetries resp events).waits.head? = some 1))
    ∧ (¬ (200 ≤ code ∧ code < 300) → code ≠ 429 →
      classifyStatus code = AttemptKind.terminal ∧
      sendBatch maxRetries resp events =
        { outcome := SendOutcome.dropped, posts := 1, waits := [] }) := by
  have hie : events.isEmpty = false := by
    cases events with
    | nil => cases hne rfl
    | cons a l => rfl
  refine ⟨?_, ?_, ?_⟩
  · intro h201
    subst h201
    constructor
    · rfl
    · rw [sendBatch, hie]
      simp only [Bool.false_eq_true, if_false]
      exact sendBatchGo_201 maxRetries resp maxRetries 0 h0
  · intro h429
    subst h429
    refine ⟨rfl, ?_⟩
    intro hpos
    have hstep := sendBatchGo_429_retry maxRetries resp maxRetries 0 h0 hpos
    have hrest := sendBatchGo_posts_pos maxRetries resp maxRetries 1 hpos
    rw [sendBatch, hie]
    simp only [Bool.false_eq_true, if_false, hstep]
    exact ⟨Nat.succ_le_succ hrest, rfl⟩
  · intro hno2 hn429
    have h201 : code ≠ 201 := by omega
    refine ⟨?_, ?_⟩
    · rw [classifyStatus, if_neg h201, if_neg hn429]
    · rw [sendBatch, hie]
      simp only [Bool.false_eq_true, if_false]
      exact sendBatchGo_terminal maxRetries resp maxRetries 0 code h0 h201 hn429

/-- Witness for C5 at status 500 with `max_retries = 3`: the batch is posted
once, no backoff wait happens, and the batch is dropped. -/
theorem sendBatch_status_cases_witness :
    sendBatch 3 all500 [sampleEvent] =
      { outcome := SendOutcome.dropped, posts := 1, waits := [] } :=
  ((sendBatch_status_cases 3 all500 [sampleEvent] 500 (by simp) rfl).2.2
    (by omega) (by omega)).2

theorem sent_append_ne (l : List (List TraceEvent)) (x : List TraceEvent) :
    l ++ [x] ≠ l := by
  intro h
  have := congrArg List.length h
  simp at this

/-- C2: in one iteration of the background worker loop (whether or not an
event was dequeued), a flush occurs if and only if the post-dequeue batch is
non-empty and (its length has reached `batch_size`, or the elapsed time since
the last flush has reached `flush_interval`, or an explicit flush request is
pending); a flush empties the batch and resets the last-flush marker to the
current time, and a non-flushing iteration changes nothing but the batch. -/
theorem workerIter_flush_iff (cfg : WorkerConfig) (s : WorkerState)
    (arrived : Option TraceEvent) (now : ℚ) :
    ((workerIter cfg s arrived now).sent ≠ s.sent ↔
      (appendArrived s.batch arrived ≠ [] ∧
        (cfg.batchSize ≤ (appendArrived s.batch arrived).length ∨
          cfg.flushInterval ≤ now - s.lastFlush ∨ s.flushRequested = true)))
    ∧ ((workerIter cfg s arrived now).sent ≠ s.sent →
        workerIter cfg s arrived now =
          { batch := [], lastFlush := now, flushRequested := false
            sent := s.sent ++ [appendArrived s.batch arrived] })
    ∧ ((workerIter cfg s arrived now).sent = s.sent →
        workerIter cfg s arrived now =
          { batch := appendArrived s.batch arrived, lastFlush := s.lastFlush
            flushRequested := s.flushRequested, sent := s.sent }) := by
  have hcond : (shouldFlush cfg (appendArrived s.batch arrived) s.lastFlush now
        s.flushRequested && !(appendArrived s.batch arrived).isEmpty) = true ↔
      (appendArrived s.batch arrived ≠ [] ∧
        (cfg.batchSize ≤ (appendArrived s.batch arrived).length ∨
          cfg.flushInterval ≤ now - s.lastFlush ∨ s.flushRequested = true)) := by
    simp only [shouldFlush, Bool.and_eq_true, Bool.or_eq_true, Bool.not_eq_eq_eq_not,
      Bool.not_true, List.isEmpty_eq_false, decide_eq_true_eq, ne_eq]
    constructor
    · rintro ⟨h1, h2⟩
      exact ⟨h2, by tauto⟩
    · rintro ⟨h1, h2⟩
      refine ⟨?_, h1⟩
      rcases h2 with h | h | h
      · tauto
      · tauto
      · tauto
  by_cases h : (shouldFlush cfg (appendArrived s.batch arrived) s.lastFlush now
      s.flushRequested && !(appendArrived s.batch arrived).isEmpty) = true
  · have heq : workerIter cfg s arrived now =
        { batch := [], lastFlush := now, flushRequested := false
          sent := s.sent ++ [appendArrived s.batch arrived] } := by
      rw [workerIter]
      simp only [h, if_true]
    refine ⟨?_, fun _ => heq, ?_⟩
    · rw [heq]
      exact iff_of_true (sent_append_ne s.sent _) (hcond.mp h)
    · intro hsame
      rw [heq] at hsame
      exact absurd hsame (sent_append_ne s.sent _)
  · have heq : workerIter cfg s arrived now =
        { batch := appendArrived s.batch arrived, lastFlush := s.lastFlush
          flushRequested := s.flushRequested, sent := s.sent } := by
      rw [workerIter]
      simp only [h, if_false]
      simp at h ⊢
    refine ⟨?_, ?_, fun _ => heq⟩
    · rw [heq]
      simp only [ne_eq, not_true_eq_false, false_iff]
      exact fun hc => h (hcond.mpr hc)
    · intro hne
      rw [heq] at hne
      simp at hne
  -- no flush: the sent list is unchanged

/-- C3: whenever the stop signal is set at the loop check, the worker exits
regardless of any remaining schedule (no further dequeues happen), performs
exactly one unconditional final `_send_batch` of the accumulated batch when
it is non-empty (however small the batch is — `finalFlush` never consults
`batch_size`), sends nothing when the batch is empty, and terminates. -/
theorem workerRun_stop (cfg : WorkerConfig) (s : WorkerState) (i : IterInput)
    (rest : List IterInput) (hstop : i.stopSet = true) :
    workerRun cfg s (i :: rest) = (finalFlush s, true)
    ∧ (s.batch ≠ [] → (finalFlush s).sent = s.sent ++ [s.batch])
    ∧ (s.batch = [] → finalFlush s = s) := by
  refine ⟨?_, ?_, ?_⟩
  · rw [workerRun]
    simp only [hstop, if_true]
  · intro h
    rw [finalFlush]
    simp [List.isEmpty_eq_false.mpr h]
  · intro h
    rw [finalFlush]
    simp [h]

/-- Witness for C3: on a one-entry schedule whose stop signal is set, the
worker with a single below-threshold accumulated event sends exactly that
batch and terminates. -/
theorem workerRun_stop_witness :
    workerRun sampleCfg sampleState (sampleStopInput :: []) = (finalFlush sampleState, true)
    ∧ (sampleState.batch ≠ [] →
        (finalFlush sampleState).sent = sampleState.sent ++ [sampleState.batch])
    ∧ (sampleState.batch = [] → finalFlush sampleState = sampleState) :=
  workerRun_stop sampleCfg sampleState sampleStopInput [] rfl

/-- C4: `TokenUsage` construction derives `total` as `prompt + completion`
exactly when `total` is omitted (pydantic default 0) or supplied as 0, and
preserves any nonzero supplied `total` unchanged (even one inconsistent with
`prompt + completion`); `prompt` and `completion` are always kept as given. -/
theorem tokenUsage_total_rule (p c t : Int) :
    ((TokenUsage.init p c t).total = if t = 0 then p + c else t)
    ∧ (TokenUsage.init p c).total = p + c
    ∧ (t ≠ 0 → (TokenUsage.init p c t).total = t)
    ∧ (TokenUsage.init p c t).prompt = p
    ∧ (TokenUsage.init p c t).completion = c := by
  refine ⟨rfl, by simp [TokenUsage.init], fun h => by simp [TokenUsage.init, h],
    rfl, rfl⟩

theorem flPos_m_nonneg (n d : Nat) : 0 ≤ (flPos n d).m := by
  unfold flPos
  positivity

theorem flRat_m_nonneg (num : Int) (den : Nat) (h : 0 ≤ num) :
    0 ≤ (flRat num den).m := by
  unfold flRat
  split_ifs with h0 hneg
  · simp
  · omega
  · exact flPos_m_nonneg _ _

theorem trunc_nonneg (x : FP) (h : 0 ≤ x.m) : 0 ≤ x.trunc := by
  unfold FP.trunc
  split_ifs with h1
  · exact mul_nonneg h (by positivity)
  · positivity

theorem durationMsFloat_nonneg (s e : Int) (h : s ≤ e) :
    0 ≤ durationMsFloat s e := by
  unfold durationMsFloat flTimes1000
  apply trunc_nonneg
  apply flRat_m_nonneg
  have h1 : 0 ≤ (flRat (e - s) 1000000).m := flRat_m_nonneg _ _ (by omega)
  positivity

theorem flRat_zero (den : Nat) : flRat 0 den = { m := 0, e := 0 } := by
  unfold flRat
  simp

theorem durationMsFloat_self (s : Int) : durationMsFloat s s = 0 := by
  unfold durationMsFloat flTimes1000
  rw [sub_self, flRat_zero]
  norm_num [flRat_zero, FP.trunc]

/-- C6 counterexample: for a span of exactly 1.001 s (start 0 µs, end
1 001 000 µs) the recorded `duration_ms` is 1000 — the two binary64 roundings
in `int((end_time - start_time).total_seconds() * 1000)` land just below
1001 — while `(end_time - start_time)` expressed in whole milliseconds is
1001, so the claimed equality fails. -/
theorem buildEvent_duration_cex :
    (buildEvent sampleClient "e" "t" "s" 0 "llm_call" [] [] [] none none none
        (some 0) (some 1001000) "success" none none none none).durationMs = 1000
    ∧ (((1001000 : Int) - 0).toNat / 1000 : Nat) = 1001
    ∧ (buildEvent sampleClient "e" "t" "s" 0 "llm_call" [] [] [] none none none
        (some 0) (some 1001000) "success" none none none none).durationMs ≠
      ((((1001000 : Int) - 0).toNat / 1000 : Nat) : Int) := by
  refine ⟨by decide, by decide, by decide⟩

/-- C6 (amended): a trace call with explicit timestamps with end not earlier
than start records `duration_ms` equal to
`int((end_time - start_time).total_seconds() * 1000)` evaluated in IEEE-754
binary64 arithmetic — which can fall one below the exact whole-millisecond
count — and this value is non-negative, and 0 when the two timestamps are
equal. -/
theorem buildEvent_duration_float (c : EvalForge) (freshId freshTraceId freshSpanId : String)
    (nowUs : Int) (operationType : String)
    (inputData outputData metadata : List (String × String))
    (traceId spanId parentSpanId : Option String) (sUs eUs : Int)
    (status : String) (tokens : Option TokenUsage) (cost : Option ℚ)
    (provider mdl : Option String) (h : sUs ≤ eUs) :
    (buildEvent c freshId freshTraceId freshSpanId nowUs operationType inputData
        outputData metadata traceId spanId parentSpanId (some sUs) (some eUs)
        status tokens cost provider mdl).durationMs = durationMsFloat sUs eUs
    ∧ 0 ≤ (buildEvent c freshId freshTraceId freshSpanId nowUs operationType
        inputData outputData metadata traceId spanId parentSpanId (some sUs)
        (some eUs) status tokens cost provider mdl).durationMs
    ∧ (sUs = eUs →
      (buildEvent c freshId freshTraceId freshSpanId nowUs operationType
        inputData outputData metadata traceId spanId parentSpanId (some sUs)
        (some eUs) status tokens cost provider mdl).durationMs = 0) := by
  have hdm : (buildEvent c freshId freshTraceId freshSpanId nowUs operationType
      inputData outputData metadata traceId spanId parentSpanId (some sUs)
      (some eUs) status tokens cost provider mdl).durationMs =
      durationMsFloat sUs eUs := rfl
  refine ⟨hdm, ?_, ?_⟩
  · rw [hdm]
    exact durationMsFloat_nonneg sUs eUs h
  · intro heq
    rw [hdm, heq]
    exact durationMsFloat_self eUs

/-- Witness for C6 at start 0 µs and end 2500 µs: the float pipeline is
exact there and the recorded duration evaluates to 2 ms. -/
theorem buildEvent_duration_float_witness :
    ((buildEvent sampleClient "e" "t" "s" 0 "llm_call" [] [] [] none none
        none (some 0) (some 2500) "success" none none none none).durationMs =
      durationMsFloat 0 2500
    ∧ 0 ≤ (buildEvent sampleClient "e" "t" "s" 0 "llm_call" [] [] [] none none
        none (some 0) (some 2500) "success" none none none none).durationMs
    ∧ ((0 : Int) = 2500 →
      (buildEvent sampleClient "e" "t" "s" 0 "llm_call" [] [] [] none none
        none (some 0) (some 2500) "success" none none none none).durationMs = 0))
    ∧ durationMsFloat 0 2500 = 2 :=
  ⟨buildEvent_duration_float sampleClient "e" "t" "s" 0 "llm_call" [] [] []
    none none none 0 2500 "success" none none none none (by norm_num),
    by decide⟩

/-- C7: the module-level `trace` called while no global client is configured
raises a descriptive `ValueError` to the caller instead of silently
ignoring the record. -/
theorem moduleTrace_unconfigured_raises (freshId freshTraceId freshSpanId : String)
    (nowUs : Int) (operationType : String)
    (inputData outputData metadata : List (String × String))
    (traceId spanId parentSpanId : Option String) (startUs endUs : Option Int)
    (status : String) (tokens : Option TokenUsage) (cost : Option ℚ)
    (provider mdl : Option String) :
    moduleTrace none freshId freshTraceId freshSpanId nowUs operationType
        inputData outputData metadata traceId spanId parentSpanId startUs endUs
        status tokens cost provider mdl =
      Except.error "EvalForge client not configured. Call evalforge.configure() first." :=
  rfl

/-- C8 (counter to the claim, recording the code's actual behaviour): the
constructor ignores the `debug` argument and forces the effective debug
setting to `true` (client.py line 59), so an explicit `debug = false` does
not take precedence. -/
theorem evalforge_init_forces_debug (d : Bool) :
    (EvalForge.init "key" 1 "https://api.evalforge.dev" 100 5 3 30 d).debug = true :=
  rfl

/-- C9: the constructor builds the event queue without a capacity bound, and
on any client whose queue is unbounded a `trace` call always enqueues the
built event (the `queue.Full` branch is unreachable) and returns the
resolved trace id. -/
theorem trace_always_enqueues (c : EvalForge)
    (freshId freshTraceId freshSpanId : String) (nowUs : Int)
    (operationType : String) (inputData outputData metadata : List (String × String))
    (traceId spanId parentSpanId : Option String) (startUs endUs : Option Int)
    (status : String) (tokens : Option TokenUsage) (cost : Option ℚ)
    (provider mdl : Option String) (apiKey : String) (projectId : Int)
    (hcap : c.eventQueue.capacity = none) :
    (EvalForge.init apiKey projectId).eventQueue.capacity = none
    ∧ (c.trace freshId freshTraceId freshSpanId nowUs operationType inputData
        outputData metadata traceId spanId parentSpanId startUs endUs status
        tokens cost provider mdl) =
      (traceId.getD freshTraceId,
        { c with eventQueue :=
            { capacity := none
              items := c.eventQueue.items ++
                [buildEvent c freshId freshTraceId freshSpanId nowUs operationType
                  inputData outputData metadata traceId spanId parentSpanId
                  startUs endUs status tokens cost provider mdl] } },
        true) := by
  have hput : ∀ e : TraceEvent, c.eventQueue.putNowait e =
      some { capacity := none, items := c.eventQueue.items ++ [e] } := by
    intro e
    unfold EQueue.putNowait
    rw [hcap]
  refine ⟨rfl, ?_⟩
  simp only [EvalForge.trace, hput]
  rfl

/-- Witness for C9: on the freshly constructed sample client the trace call
enqueues its event and returns the generated trace id. -/
theorem trace_always_enqueues_witness :
    (EvalForge.init "k2" 2).eventQueue.capacity = none
    ∧ (sampleClient.trace "e" "t" "s" 0 "llm_call" [] [] [] none none none
        none none "success" none none none none) =
      ("t",
        { sampleClient with eventQueue :=
            { capacity := none
              items := sampleClient.eventQueue.items ++
                [buildEvent sampleClient "e" "t" "s" 0 "llm_call" [] [] [] none
                  none none none none "success" none none none none] } },
        true) :=
  trace_always_enqueues sampleClient "e" "t" "s" 0 "llm_call" [] [] [] none none
    none none none "success" none none none none "k2" 2 rfl

/-- C10: the module-level `flush` called while no global client is
configured returns `True` at once, whatever a delegated client flush would
have reported, and does not raise — unlike the module-level `trace`, which
errors in the same unconfigured state. -/
theorem moduleFlush_unconfigured (r : Bool) (freshId freshTraceId freshSpanId : String)
    (nowUs : Int) (operationType : String)
    (inputData outputData metadata : List (String × String))
    (traceId spanId parentSpanId : Option String) (startUs endUs : Option Int)
    (status : String) (tokens : Option TokenUsage) (cost : Option ℚ)
    (provider mdl : Option String) :
    moduleFlush none r = true
    ∧ moduleTrace none freshId freshTraceId freshSpanId nowUs operationType
        inputData outputData metadata traceId spanId parentSpanId startUs endUs
        status tokens cost provider mdl =
      Except.error "EvalForge client not configured. Call evalforge.configure() first." :=
  ⟨rfl, rfl⟩

end Evalforge
